import Mathlib

/-!
Verification development for the SIP/WebRTC client (`src/sip-client.js`).

The `SIPClient` class keeps a `Map` of active sessions (`activeSessions`),
a nullable `userAgent` transport handle and a `connected` flag.  Its public
commands (`makeCall`, `answerCall`, `hangupCall`), its transport-disconnect
delegate, its outbound call-timeout callback and its auto-answer callback are
embedded below as pure state-passing functions.  Session objects are the
sip.js `Inviter` / `Invitation` dialogs; they are modelled by their
discriminating class (`Direction`), their sip.js `SessionState` and the
remote party string.
-/

namespace SIPClient

/-- sip.js `SessionState` as read from `session.state` in the source. -/
inductive SessionState
  | initial
  | establishing
  | established
  | terminating
  | terminated
  deriving DecidableEq, Repr

/-- Discriminates `Inviter` (outbound dialog) from `Invitation` (inbound
dialog); the source dispatches with `instanceof`. -/
inductive Direction
  | outbound
  | inbound
  deriving DecidableEq, Repr

/-- One entry of `this.activeSessions`: the dialog's class, its current
sip.js state, and the remote party string it was created with. -/
structure Session where
  direction : Direction
  state : SessionState
  remoteParty : String
  deriving DecidableEq, Repr

/-- The `Error` values thrown by `SIPClient` methods, one constructor per
distinct `throw new Error(...)` message in the source. -/
inductive SIPError
  | notConnected
  | invalidSessionOrNotFound
  | sessionNotFound
  deriving DecidableEq, Repr

/-- Media constraints as assembled by `makeCall` / `answerCall`:
whether audio is requested and whether the video constraint object (rather
than `false`) is passed. -/
structure MediaConstraints where
  audioRequested : Bool
  videoRequested : Bool
  deriving DecidableEq, Repr

/-- A JavaScript options object `{video: bool, audio: bool}` where either
field may be absent; the default argument `{}` is `⟨none, none⟩`. -/
structure CallOptions where
  audioOpt : Option Bool
  videoOpt : Option Bool
  deriving DecidableEq, Repr

/-- Transport-level primitives the client invokes on a session dialog. -/
inductive TransportCmd
  | cancel
  | reject
  | bye
  deriving DecidableEq, Repr

/-- Lifecycle events emitted by the client (`this.emit(...)`). -/
inductive LifecycleEvent
  | registered
  | unregistered
  | inviteEvt (sessionId : String)
  | establishedEvt (sessionId : String)
  | terminatedEvt (sessionId : String)
  deriving DecidableEq, Repr

/-- The configuration fields of `this.config` that the embedded operations
consult (`config.domain || config.server` in `makeCall`). -/
structure SIPConfig where
  server : String
  domain : Option String
  deriving DecidableEq, Repr

/-- The `userAgent` handle as far as the embedded code reads it:
`userAgent.isRegistered()`. -/
structure UAHandle where
  isRegistered : Bool
  deriving DecidableEq, Repr

/-- The mutable fields of a `SIPClient` instance used by the embedded
operations.  `activeSessions` is the insertion-ordered `Map` modelled as an
association list. -/
structure ClientState where
  config : SIPConfig
  userAgent : Option UAHandle
  connected : Bool
  activeSessions : List (String × Session)
  deriving DecidableEq, Repr

/-- `Map.prototype.get`. -/
def regGet (m : List (String × Session)) (k : String) : Option Session :=
  match m with
  | [] => none
  | (k2, v) :: rest => if k2 = k then some v else regGet rest k

/-- `Map.prototype.set`: replaces the value of an existing key in place,
otherwise appends the binding. -/
def regSet (m : List (String × Session)) (k : String) (v : Session) :
    List (String × Session) :=
  match m with
  | [] => [(k, v)]
  | (k2, v2) :: rest =>
      if k2 = k then (k2, v) :: rest else (k2, v2) :: regSet rest k v

/-- `Map.prototype.has`. -/
def regHas (m : List (String × Session)) (k : String) : Bool :=
  (regGet m k).isSome

/-- The fresh state set up by the `SIPClient` constructor: no user agent,
not connected, empty session map. -/
def initialState (config : SIPConfig) : ClientState :=
  { config := config
  , userAgent := none
  , connected := false
  , activeSessions := [] }

/-- `isConnected()`:  `this.connected && this.userAgent?.isRegistered()`.
When `userAgent` is `null` the optional chain yields a falsy value, so the
whole expression is falsy. -/
def isConnected (s : ClientState) : Bool :=
  s.connected &&
    (match s.userAgent with
     | none => false
     | some ua => ua.isRegistered)

/-- One character of JavaScript `Number.prototype.toString(36)` output. -/
def base36Char (d : Fin 36) : Char :=
  if d.val < 10 then Char.ofNat (48 + d.val) else Char.ofNat (87 + d.val)

/-- JavaScript `r.toString(36)` for a float `r` in `[0, 1)` given by its
canonical base-36 fraction digits (no trailing zero digit): `0` prints as
`"0"`, other values print as `"0."` followed by the digits. -/
def jsToString36 (frac : List (Fin 36)) : String :=
  if frac.isEmpty then (r"0")
  else (r"0.") ++ String.mk (frac.map base36Char)

/-- `generateSessionId()`: `Math.random().toString(36).substr(2, 9)`, a pure
function of the single random draw. -/
def generateSessionId (frac : List (Fin 36)) : String :=
  ((jsToString36 frac).drop 2).take 9

/-- The constraints object built identically by `makeCall` and `answerCall`:
`audio: options.audio !== false` and `video: options.video !== false ? {...}
: false`. -/
def mkConstraints (opts : CallOptions) : MediaConstraints :=
  { audioRequested := !(opts.audioOpt == some false)
  , videoRequested := !(opts.videoOpt == some false) }

/-- The `sessionDescriptionHandlerFactoryOptions` constraints assembled in
`connect()` from the process environment: `audio: process.env.AUDIO_ENABLED
=== 'true'` and `video: process.env.VIDEO_ENABLED === 'true' ? {...} :
false`. -/
def envConnectConstraints (audioEnabledVar videoEnabledVar : Option String) :
    MediaConstraints :=
  { audioRequested := audioEnabledVar == some (r"true")
  , videoRequested := videoEnabledVar == some (r"true") }

/-- The `acceptOptions` constraints of `answerCall`, written with the two
media environment variables in scope to record that, unlike the connect-time
constraints, they are not consulted. -/
def acceptConstraints (audioEnabledVar videoEnabledVar : Option String)
    (opts : CallOptions) : MediaConstraints :=
  mkConstraints opts

/-- The target URI of `makeCall`: `target.startsWith('sip:') ? target :
`sip:${target}@${this.config.domain || this.config.server}``  (a present but
empty `domain` string is falsy in JavaScript). -/
def resolveUri (config : SIPConfig) (target : String) : String :=
  if target.startsWith (r"sip:") then target
  else
    (r"sip:") ++ target ++ (r"@") ++
      (match config.domain with
       | some d => if d = (r"") then config.server else d
       | none => config.server)

/-- `makeCall(target, options = {})`: throws when `!this.isConnected()`;
otherwise creates an `Inviter` (an outbound session in sip.js state
`Initial`), stores it under a freshly generated id and returns the id.  The
random draw feeding `generateSessionId` is passed explicitly. -/
def makeCall (s : ClientState) (target : String) (opts : CallOptions)
    (frac : List (Fin 36)) : Except SIPError String × ClientState :=
  if isConnected s then
    let sessionId := generateSessionId frac
    let sess : Session :=
      { direction := Direction.outbound
      , state := SessionState.initial
      , remoteParty := resolveUri s.config target }
    (Except.ok sessionId,
     { s with activeSessions := regSet s.activeSessions sessionId sess })
  else
    (Except.error SIPError.notConnected, s)

/-- `answerCall(sessionId, options = {})`: throws the single error
`Invalid session or session not found` when the map has no entry for the id
or the entry is not an `Invitation`; otherwise calls `session.accept` with
the constraints built from `options`, regardless of the session's state.
The session map is not mutated. -/
def answerCall (s : ClientState) (sessionId : String) (opts : CallOptions) :
    Except SIPError MediaConstraints × ClientState :=
  match regGet s.activeSessions sessionId with
  | none => (Except.error SIPError.invalidSessionOrNotFound, s)
  | some sess =>
      match sess.direction with
      | Direction.inbound => (Except.ok (mkConstraints opts), s)
      | Direction.outbound => (Except.error SIPError.invalidSessionOrNotFound, s)

/-- `hangupCall(sessionId)`: throws `Session not found` when the map has no
entry; for an `Inviter` in `Initial`/`Establishing` it calls `cancel()`,
for an `Inviter` in any other state `bye()`; for an `Invitation` in
`Initial` it calls `reject()`, in any other state `bye()`.  The session map
is not mutated (removal happens in the `Terminated` state-change listener). -/
def hangupCall (s : ClientState) (sessionId : String) :
    Except SIPError TransportCmd × ClientState :=
  match regGet s.activeSessions sessionId with
  | none => (Except.error SIPError.sessionNotFound, s)
  | some sess =>
      match sess.direction with
      | Direction.outbound =>
          if sess.state = SessionState.initial ∨
             sess.state = SessionState.establishing
          then (Except.ok TransportCmd.cancel, s)
          else (Except.ok TransportCmd.bye, s)
      | Direction.inbound =>
          if sess.state = SessionState.initial
          then (Except.ok TransportCmd.reject, s)
          else (Except.ok TransportCmd.bye, s)

/-- The `onDisconnect` delegate installed in `connect()`: it logs, sets
`this.connected = false` and emits a single `unregistered` event; the
session map is not touched. -/
def onDisconnect (s : ClientState) : ClientState × List LifecycleEvent :=
  ({ s with connected := false }, [LifecycleEvent.unregistered])

/-- The call-timeout callback scheduled by `makeCall`:
`if (this.activeSessions.has(sessionId) && inviter.state !== 'Established')
inviter.cancel()`.  The closure reads the captured inviter's state, passed
here as `inviterState`. -/
def callTimeoutFire (s : ClientState) (sessionId : String)
    (inviterState : SessionState) : Option TransportCmd :=
  if regHas s.activeSessions sessionId = true ∧
     inviterState ≠ SessionState.established
  then some TransportCmd.cancel
  else none

/-- The auto-answer callback scheduled by `handleIncomingCall`:
`if (invitation.state === 'Initial') this.answerCall(sessionId)` — the
`options` argument is omitted, so `answerCall` runs with the default `{}`.
The closure reads the captured invitation's state, passed here as
`invitationState`; `none` means the callback performed no action. -/
def autoAnswerFire (s : ClientState) (sessionId : String)
    (invitationState : SessionState) :
    Option (Except SIPError MediaConstraints × ClientState) :=
  if invitationState = SessionState.initial
  then some (answerCall s sessionId ⟨none, none⟩)
  else none

/-- `handleIncomingCall(invitation)`: generates an id, stores the
`Invitation` (an inbound session, in sip.js state `Initial` on receipt) and
emits the `invite` event. -/
def handleIncomingCall (s : ClientState) (caller : String)
    (frac : List (Fin 36)) : String × ClientState × List LifecycleEvent :=
  let sessionId := generateSessionId frac
  let sess : Session :=
    { direction := Direction.inbound
    , state := SessionState.initial
    , remoteParty := caller }
  (sessionId,
   { s with activeSessions := regSet s.activeSessions sessionId sess },
   [LifecycleEvent.inviteEvt sessionId])


/-- Lookup after `Map.set` of the same key returns the stored value. -/
theorem regGet_regSet_self (m : List (String × Session)) (k : String)
    (v : Session) : regGet (regSet m k v) k = some v := by
  induction m with
  | nil => simp [regSet, regGet]
  | cons kv rest ih =>
      obtain ⟨k2, v2⟩ := kv
      by_cases h : k2 = k <;> simp [regSet, regGet, h, ih]

/-- A configuration used by the concrete instances below. -/
def cfgA : SIPConfig := ⟨r"sip.example.com", some (r"example.com")⟩

/-- A registered user-agent handle. -/
def uaReg : UAHandle := ⟨true⟩

/-- A connected, registered client with no sessions. -/
def connStateA : ClientState := ⟨cfgA, some uaReg, true, []⟩

/-- A connected client holding one inbound session still in `Initial`
(the sip.js state of a ringing invitation). -/
def inboundRingingState : ClientState :=
  ⟨cfgA, some uaReg, true,
   [((r"in1"), ⟨Direction.inbound, SessionState.initial, (r"carol")⟩)]⟩

/-- A connected client holding one inbound session already `Established`. -/
def inboundEstState : ClientState :=
  ⟨cfgA, some uaReg, true,
   [((r"in2"), ⟨Direction.inbound, SessionState.established, (r"alice")⟩)]⟩

/-- A connected client holding one inbound session in `Establishing`
(accept in flight). -/
def inboundEstablishingState : ClientState :=
  ⟨cfgA, some uaReg, true,
   [((r"in3"), ⟨Direction.inbound, SessionState.establishing, (r"bob")⟩)]⟩

/-- A connected client holding one outbound session still in `Initial`. -/
def outboundState : ClientState :=
  ⟨cfgA, some uaReg, true,
   [((r"o1"), ⟨Direction.outbound, SessionState.initial, (r"sip:erin@example.com")⟩)]⟩

/-- The base-36 fraction digits of the draw `Math.random() = 0.5`
(`(0.5).toString(36)` is `"0.i"`). -/
def drawHalf : List (Fin 36) := [⟨18, by decide⟩]

/-- A draw whose base-36 fraction digits render as `"abc"`. -/
def drawAbc : List (Fin 36) := [⟨10, by decide⟩, ⟨11, by decide⟩, ⟨12, by decide⟩]

/-- C2 (counterexample): the claim says a transport disconnect terminates and
removes every registered session, leaving zero live sessions.  On a client
holding one established inbound session, the `onDisconnect` delegate leaves
the session map exactly as it was: the session survives the transport drop. -/
theorem C2_counterexample :
    (onDisconnect inboundEstState).1.activeSessions =
      [((r"in2"), ⟨Direction.inbound, SessionState.established, (r"alice")⟩)] ∧
    (onDisconnect inboundEstState).1.activeSessions ≠ [] := by
  exact ⟨rfl, by decide⟩

/-- C2 (amended): the transport-disconnect delegate emits exactly one
lifecycle event (`unregistered`) and clears the `connected` flag, but it
neither transitions nor removes any session: the session map after the
handler is identical to the one before, so orphaned sessions do survive a
transport drop. -/
theorem C2_amended (s : ClientState) :
    (onDisconnect s).1.activeSessions = s.activeSessions ∧
    (onDisconnect s).1.connected = false ∧
    (onDisconnect s).2 = [LifecycleEvent.unregistered] ∧
    (onDisconnect s).2.length = 1 :=
  ⟨rfl, rfl, rfl, rfl⟩

/-- C7: for an identifier with no entry in the session map (unknown or
already removed on termination), `hangupCall` fails with the deliberate
`Session not found` error — no other fault is reached — and the client
state, in particular the session map, is unchanged. -/
theorem C7_hangup_unknown_id (s : ClientState) (sessionId : String)
    (h : regGet s.activeSessions sessionId = none) :
    (hangupCall s sessionId).1 = Except.error SIPError.sessionNotFound ∧
    (hangupCall s sessionId).2 = s := by
  unfold hangupCall
  rw [h]
  exact ⟨rfl, rfl⟩

/-- C7 witness: hanging up an unknown identifier on a fresh client. -/
theorem C7_witness :
    (hangupCall (initialState cfgA) (r"ghost")).1 =
        Except.error SIPError.sessionNotFound ∧
    (hangupCall (initialState cfgA) (r"ghost")).2 = initialState cfgA :=
  C7_hangup_unknown_id (initialState cfgA) (r"ghost") rfl

/-- C8: `makeCall` fails with the `SIP client not connected` error exactly
when `isConnected()` is false (the realization of `NotRegistered`), and in
that case only; when connected it returns the freshly generated session id,
under which the new outbound session (state `Initial`, remote party the
resolved URI) is found in the updated session map. -/
theorem C8_makeCall_registration_guard (s : ClientState) (target : String)
    (opts : CallOptions) (frac : List (Fin 36)) :
    ((makeCall s target opts frac).1 = Except.error SIPError.notConnected ↔
      isConnected s = false) ∧
    (isConnected s = true →
      (makeCall s target opts frac).1 = Except.ok (generateSessionId frac) ∧
      regGet (makeCall s target opts frac).2.activeSessions
          (generateSessionId frac) =
        some ⟨Direction.outbound, SessionState.initial,
              resolveUri s.config target⟩) := by
  cases hc : isConnected s with
  | false =>
      refine ⟨by simp [makeCall, hc], fun h => ?_⟩
      exact absurd h (by decide)
  | true =>
      refine ⟨by simp [makeCall, hc], fun _ => ⟨by simp [makeCall, hc], ?_⟩⟩
      simp [makeCall, hc, regGet_regSet_self]

/-- C8 witness: a connected client making a call with the draw `"abc"`. -/
theorem C8_witness :
    (makeCall connStateA (r"dave") ⟨none, none⟩ drawAbc).1 =
      Except.ok (generateSessionId drawAbc) ∧
    regGet (makeCall connStateA (r"dave") ⟨none, none⟩ drawAbc).2.activeSessions
        (generateSessionId drawAbc) =
      some ⟨Direction.outbound, SessionState.initial,
            resolveUri connStateA.config (r"dave")⟩ :=
  (C8_makeCall_registration_guard connStateA (r"dave") ⟨none, none⟩ drawAbc).2 rfl

/-- C10: when the user agent is still `null` (no `connect()` yet) or the
`connected` flag is cleared, `isConnected()` is false — the model returns
`false` on the `none` branch without consulting any handle, mirroring the
short-circuiting optional chain — so `makeCall` fails on its initial guard
and returns the client state unchanged (the error precedes any mutation);
in particular the constructor state is never connected. -/
theorem C10_null_userAgent_guard (s : ClientState) (target : String)
    (opts : CallOptions) (frac : List (Fin 36))
    (h : s.userAgent = none ∨ s.connected = false) :
    isConnected s = false ∧
    (makeCall s target opts frac).1 = Except.error SIPError.notConnected ∧
    (makeCall s target opts frac).2 = s ∧
    (∀ cfg, isConnected (initialState cfg) = false) := by
  have hic : isConnected s = false := by
    rcases h with h | h
    · simp [isConnected, h]
    · simp [isConnected, h]
  exact ⟨hic, by simp [makeCall, hic], by simp [makeCall, hic], fun cfg => rfl⟩

/-- C10 witness: the constructor state (null user agent, not connected). -/
theorem C10_witness :
    isConnected (initialState cfgA) = false ∧
    (makeCall (initialState cfgA) (r"alice") ⟨none, none⟩ drawHalf).1 =
      Except.error SIPError.notConnected ∧
    (makeCall (initialState cfgA) (r"alice") ⟨none, none⟩ drawHalf).2 =
      initialState cfgA := by
  have h := C10_null_userAgent_guard (initialState cfgA) (r"alice")
    ⟨none, none⟩ drawHalf (Or.inl rfl)
  exact ⟨h.1, h.2.1, h.2.2.1⟩

/-- C1 (counterexample): the claim says `answerCall` succeeds only for an
inbound session still ringing (sip.js state `Initial`) and fails with
`InvalidSessionState` in any other state.  On an inbound session already in
`Established`, `answerCall` nevertheless succeeds and issues a second
transport-level accept: the source checks only `instanceof Invitation`,
never the session state. -/
theorem C1_counterexample :
    (answerCall inboundEstState (r"in2") ⟨none, none⟩).1 =
      Except.ok ⟨true, true⟩ ∧
    SessionState.established ≠ SessionState.initial := by
  exact ⟨rfl, by decide⟩

/-- C1 (amended): `answerCall` issues a transport-level accept exactly when
the session map holds the identifier and the session is inbound (an
`Invitation`), in whatever state it is; a missing identifier and a
non-inbound session both fail with the one combined error
`Invalid session or session not found`; the client state is unchanged.  No
deadline is explicitly disarmed by accepting: instead the scheduled
auto-answer callback re-checks the captured invitation's state at fire time
and performs no action once that state has left `Initial`. -/
theorem C1_amended (s : ClientState) (sessionId : String) (opts : CallOptions) :
    ((answerCall s sessionId opts).1 = Except.ok (mkConstraints opts) ↔
      ∃ sess, regGet s.activeSessions sessionId = some sess ∧
        sess.direction = Direction.inbound) ∧
    (regGet s.activeSessions sessionId = none →
      (answerCall s sessionId opts).1 =
        Except.error SIPError.invalidSessionOrNotFound) ∧
    (∀ sess, regGet s.activeSessions sessionId = some sess →
      sess.direction = Direction.outbound →
      (answerCall s sessionId opts).1 =
        Except.error SIPError.invalidSessionOrNotFound) ∧
    (answerCall s sessionId opts).2 = s ∧
    (∀ st, st ≠ SessionState.initial → autoAnswerFire s sessionId st = none) := by
  refine ⟨?_, ?_, ?_, ?_, ?_⟩
  · constructor
    · intro h
      cases hg : regGet s.activeSessions sessionId with
      | none => simp [answerCall, hg] at h
      | some sess =>
          cases hd : sess.direction with
          | outbound => simp [answerCall, hg, hd] at h
          | inbound => exact ⟨sess, rfl, hd⟩
    · rintro ⟨sess, hg, hd⟩
      simp [answerCall, hg, hd]
  · intro hg
    simp [answerCall, hg]
  · intro sess hg hd
    simp [answerCall, hg, hd]
  · cases hg : regGet s.activeSessions sessionId with
    | none => simp [answerCall, hg]
    | some sess => cases hd : sess.direction <;> simp [answerCall, hg, hd]
  · intro st hst
    simp [autoAnswerFire, hst]

/-- C1 witness: answering a ringing inbound session succeeds with the
default media options. -/
theorem C1_witness :
    (answerCall inboundRingingState (r"in1") ⟨none, none⟩).1 =
      Except.ok (mkConstraints ⟨none, none⟩) :=
  (C1_amended inboundRingingState (r"in1") ⟨none, none⟩).1.mpr
    ⟨⟨Direction.inbound, SessionState.initial, (r"carol")⟩, rfl, rfl⟩

/-- C3 (counterexample): the claim says a bye is never sent to a session
that was never established.  An inbound session in the transient
`Establishing` state (accept still in flight, `Established` never reached
since sip.js sessions only move forward) is registered, yet `hangupCall`
dispatches `bye` to it rather than `reject`. -/
theorem C3_counterexample :
    (hangupCall inboundEstablishingState (r"in3")).1 =
      Except.ok TransportCmd.bye ∧
    SessionState.establishing ≠ SessionState.established := by
  exact ⟨rfl, by decide⟩

/-- C3 (amended): for every registered session `hangupCall` dispatches
exactly one transport primitive, decided by direction and current state:
an outbound session in `Initial` or `Establishing` gets `cancel`; an
inbound session in `Initial` (the ringing state) gets `reject`; an
`Established` session of either direction gets `bye`; and `bye` is also the
fallback for every remaining state, so an inbound session in the transient
`Establishing` state or a session in `Terminating` receives `bye` even
though it is not (or no longer) established. -/
theorem C3_amended (s : ClientState) (sessionId : String) (sess : Session)
    (hg : regGet s.activeSessions sessionId = some sess) :
    (sess.direction = Direction.outbound →
      (sess.state = SessionState.initial ∨
       sess.state = SessionState.establishing) →
      (hangupCall s sessionId).1 = Except.ok TransportCmd.cancel) ∧
    (sess.direction = Direction.inbound → sess.state = SessionState.initial →
      (hangupCall s sessionId).1 = Except.ok TransportCmd.reject) ∧
    (sess.state = SessionState.established →
      (hangupCall s sessionId).1 = Except.ok TransportCmd.bye) ∧
    (∃ cmd, (hangupCall s sessionId).1 = Except.ok cmd) ∧
    (sess.direction = Direction.outbound →
      sess.state ≠ SessionState.initial →
      sess.state ≠ SessionState.establishing →
      (hangupCall s sessionId).1 = Except.ok TransportCmd.bye) ∧
    (sess.direction = Direction.inbound → sess.state ≠ SessionState.initial →
      (hangupCall s sessionId).1 = Except.ok TransportCmd.bye) := by
  cases hd : sess.direction <;> cases hst : sess.state <;>
    simp [hangupCall, hg, hd, hst]

/-- C3 witness: hanging up an outbound session still in `Initial` issues a
transport-level cancel. -/
theorem C3_witness :
    (hangupCall outboundState (r"o1")).1 = Except.ok TransportCmd.cancel :=
  (C3_amended outboundState (r"o1")
      ⟨Direction.outbound, SessionState.initial, (r"sip:erin@example.com")⟩
      rfl).1 rfl (Or.inl rfl)

/-- C4: the call-timeout callback scheduled by `makeCall` cancels exactly
the sessions that are still in the session map and whose captured inviter
is not in `Established` when the deadline fires: if the session reached
`Established`, or was removed from the map (termination through any other
path), the firing performs no action, so no timeout-triggered cancel ever
hits an established or already-removed session. -/
theorem C4_call_timeout_recheck (s : ClientState) (sessionId : String)
    (st : SessionState) :
    (st = SessionState.established →
      callTimeoutFire s sessionId st = none) ∧
    (regHas s.activeSessions sessionId = false →
      callTimeoutFire s sessionId st = none) ∧
    (callTimeoutFire s sessionId st = some TransportCmd.cancel ↔
      regHas s.activeSessions sessionId = true ∧
        st ≠ SessionState.established) := by
  refine ⟨?_, ?_, ?_⟩
  · intro he
    simp [callTimeoutFire, he]
  · intro hf
    simp [callTimeoutFire, hf]
  · unfold callTimeoutFire
    split
    case isTrue h => simpa using h
    case isFalse h => simp [h]

/-- C4 witness: with the outbound session registered, a deadline firing
while the inviter is `Established` is a no-op, and one firing while it is
still `Establishing` cancels. -/
theorem C4_witness :
    callTimeoutFire outboundState (r"o1") SessionState.established = none ∧
    callTimeoutFire outboundState (r"o1") SessionState.establishing =
      some TransportCmd.cancel :=
  ⟨(C4_call_timeout_recheck outboundState (r"o1")
      SessionState.established).1 rfl,
   (C4_call_timeout_recheck outboundState (r"o1")
      SessionState.establishing).2.2.mpr ⟨rfl, by decide⟩⟩

/-- C5: the auto-answer callback re-checks the captured invitation's state
at fire time and acts only when it is still `Initial` (the ringing state):
if the session was answered (state `Establishing`/`Established`), or
rejected or terminated by the remote party (state
`Terminating`/`Terminated`) before the delay elapsed, the firing performs
no action — no double accept, no accept after termination. -/
theorem C5_auto_answer_recheck (s : ClientState) (sessionId : String)
    (st : SessionState) :
    ((st = SessionState.establishing ∨ st = SessionState.established ∨
      st = SessionState.terminating ∨ st = SessionState.terminated) →
      autoAnswerFire s sessionId st = none) ∧
    (autoAnswerFire s sessionId st ≠ none → st = SessionState.initial) := by
  constructor
  · intro h
    rcases h with h | h | h | h <;> simp [autoAnswerFire, h]
  · intro hne
    by_contra hni
    simp [autoAnswerFire, hni] at hne

/-- C5 witness: a firing after the session was terminated is a no-op. -/
theorem C5_witness :
    autoAnswerFire inboundRingingState (r"in1") SessionState.terminated =
      none :=
  (C5_auto_answer_recheck inboundRingingState (r"in1")
      SessionState.terminated).1 (Or.inr (Or.inr (Or.inr rfl)))

/-- C6: evaluation of the code at the failing input.  `generateSessionId`
is a pure function of one `Math.random()` draw with no registry-wide
uniqueness check, so a repeated draw repeats the id: with the draw `0.5`
(`(0.5).toString(36).substr(2, 9)` is the one-character id `i`) on two
consecutive `makeCall` invocations, both calls return the id `i` and the
second `Map.set` overwrites the first session — the final map holds a
single entry, for the second callee, and the first session is orphaned. -/
theorem C6_duplicate_id_overwrites :
    generateSessionId drawHalf = (r"i") ∧
    (makeCall connStateA (r"alice") ⟨none, none⟩ drawHalf).1 =
      Except.ok (r"i") ∧
    (makeCall (makeCall connStateA (r"alice") ⟨none, none⟩ drawHalf).2
        (r"bob") ⟨none, none⟩ drawHalf).1 = Except.ok (r"i") ∧
    (makeCall (makeCall connStateA (r"alice") ⟨none, none⟩ drawHalf).2
        (r"bob") ⟨none, none⟩ drawHalf).2.activeSessions =
      [((r"i"), ⟨Direction.outbound, SessionState.initial,
                 (r"sip:bob@example.com")⟩)] := by
  exact ⟨rfl, rfl, rfl, rfl⟩

/-- C9: the auto-answer callback invokes `answerCall` with the omitted
(default `{}`) options, whose accept constraints request both audio and
video (`options.audio !== false` and `options.video !== false` are both
true for `{}`), and those constraints never consult the `AUDIO_ENABLED` /
`VIDEO_ENABLED` environment variables that shape the connect-time
constraints. -/
theorem C9_auto_answer_requests_both_media (s : ClientState)
    (sessionId : String) (sess : Session)
    (hg : regGet s.activeSessions sessionId = some sess)
    (hd : sess.direction = Direction.inbound) :
    autoAnswerFire s sessionId SessionState.initial =
      some (Except.ok ⟨true, true⟩, s) ∧
    (∀ audioEnabledVar videoEnabledVar : Option String,
      acceptConstraints audioEnabledVar videoEnabledVar ⟨none, none⟩ =
        ⟨true, true⟩) := by
  refine ⟨?_, fun _ _ => rfl⟩
  simp [autoAnswerFire, answerCall, hg, hd, mkConstraints]

/-- C9 witness: the ringing inbound session is auto-answered with both
audio and video requested. -/
theorem C9_witness :
    autoAnswerFire inboundRingingState (r"in1") SessionState.initial =
      some (Except.ok ⟨true, true⟩, inboundRingingState) :=
  (C9_auto_answer_requests_both_media inboundRingingState (r"in1")
      ⟨Direction.inbound, SessionState.initial, (r"carol")⟩ rfl rfl).1

end SIPClient
